import Mathlib

/-!
Shallow embedding of the mental-health-backend core: the conversation
priority ranking, the role-based access control over conversations and
messages, the read-state subsystem, and cascading user deletion.

The persistent store is modelled as three in-memory tables (users,
conversations, messages).  The TypeORM repository operations of the
source are modelled directly: `find` with a predicate becomes
`List.filter` / `List.find?`, `save` of a loaded row becomes an
id-keyed in-place replacement, the SQL `ORDER BY` of the priority
queue becomes a sort by the same composite key, and thrown
`NotFoundException` / `ForbiddenException` become an explicit result
type.  Ids and timestamps are natural numbers.
-/

namespace MHB

/-- `UserRole` from `common/enums/role.enum.ts`. -/
inductive UserRole where
  | student
  | counselor
  | admin
  deriving DecidableEq

/-- `SenderType` from `common/enums/conversation.enum.ts`. -/
inductive SenderType where
  | student
  | counselor
  deriving DecidableEq

/-- `ConversationStatus` from `common/enums/conversation.enum.ts`. -/
inductive ConversationStatus where
  | new
  | in_progress
  | resolved
  | closed
  deriving DecidableEq

/-- `ConversationUrgency` from `common/enums/conversation.enum.ts`. -/
inductive ConversationUrgency where
  | low
  | medium
  | high
  | emergency
  deriving DecidableEq

/-- `ConversationCategory` from `common/enums/conversation.enum.ts`. -/
inductive ConversationCategory where
  | academic
  | emotional
  | relationship
  | family
  | trauma
  | other
  deriving DecidableEq

/-- `User` entity (`users/entities/user.entity.ts`), credential fields and
timestamps omitted as opaque. -/
structure User where
  user_id : Nat
  username : String
  role : UserRole
  is_active : Bool
  deriving DecidableEq

/-- `Conversation` entity (`conversations/entities/conversation.entity.ts`).
`assigned_to` is a nullable column, hence an `Option`. -/
structure Conversation where
  conversation_id : Nat
  user_id : Nat
  is_anonymous : Bool
  category : ConversationCategory
  urgency : ConversationUrgency
  status : ConversationStatus
  assigned_to : Option Nat
  created_at : Nat
  deriving DecidableEq

/-- `Message` entity (`messages/entities/message.entity.ts`). -/
structure Message where
  message_id : Nat
  conversation_id : Nat
  sender_id : Nat
  sender_type : SenderType
  message_text : String
  is_read : Bool
  created_at : Nat
  deriving DecidableEq

/-- The three tables behind the TypeORM repositories. -/
structure Store where
  users : List User
  conversations : List Conversation
  messages : List Message
  deriving DecidableEq

/-- The exception kinds thrown by the services
(`NotFoundException`, `ForbiddenException`, `BadRequestException`,
`ConflictException`). -/
inductive ApiError where
  | notFound
  | forbidden
  | badRequest
  | conflict
  deriving DecidableEq

/-- Outcome of a service call: the returned value or the thrown exception. -/
inductive ApiResult (α : Type) where
  | ok : α → ApiResult α
  | err : ApiError → ApiResult α
  deriving DecidableEq

/-- A conversation as returned to a reader, together with its left-joined
`user` relation (when loaded) and `messages` relation. -/
structure ConvView where
  conv : Conversation
  user : Option User
  msgs : List Message
  deriving DecidableEq

/-- `conversationRepository.findOne({ where: { conversation_id } })`. -/
def findConversationById (s : Store) (conversationId : Nat) : Option Conversation :=
  s.conversations.find? (fun c => c.conversation_id == conversationId)

/-- `messageRepository.findOne({ where: { message_id } })`. -/
def findMessageById (s : Store) (messageId : Nat) : Option Message :=
  s.messages.find? (fun m => m.message_id == messageId)

/-- `userRepository.findOne({ where: { user_id } })`. -/
def findUserById (s : Store) (userId : Nat) : Option User :=
  s.users.find? (fun u => u.user_id == userId)

/-- The `messages` relation of a conversation. -/
def messagesOf (s : Store) (c : Conversation) : List Message :=
  s.messages.filter (fun m => m.conversation_id == c.conversation_id)

/-- The `user` relation of a conversation. -/
def userOf (s : Store) (c : Conversation) : Option User :=
  s.users.find? (fun u => u.user_id == c.user_id)

/-- `repository.save` of a loaded, mutated conversation row: replace the
row with the same primary key. -/
def saveConversation (s : Store) (c : Conversation) : Store :=
  { s with
    conversations := s.conversations.map
      (fun c0 => if c0.conversation_id == c.conversation_id then c else c0) }

/-- `repository.save` of a loaded, mutated message row. -/
def saveMessage (s : Store) (m : Message) : Store :=
  { s with
    messages := s.messages.map
      (fun m0 => if m0.message_id == m.message_id then m else m0) }

/-! ## Conversation ranking (`ConversationsService.findByPriority`) -/

/-- The `CASE conversation.urgency ... END` expression selected as
`priority_order` in `findByPriority`. -/
def priorityOrder : ConversationUrgency → Nat
  | ConversationUrgency.emergency => 1
  | ConversationUrgency.high => 2
  | ConversationUrgency.medium => 3
  | ConversationUrgency.low => 4

/-- The composite sort key of the priority queue:
`ORDER BY priority_order ASC, conversation.created_at ASC`. -/
def PriorityLe (a b : Conversation) : Prop :=
  priorityOrder a.urgency < priorityOrder b.urgency ∨
    (priorityOrder a.urgency = priorityOrder b.urgency ∧
      a.created_at ≤ b.created_at)

instance : DecidableRel PriorityLe := fun a b =>
  inferInstanceAs (Decidable (priorityOrder a.urgency < priorityOrder b.urgency ∨
    (priorityOrder a.urgency = priorityOrder b.urgency ∧
      a.created_at ≤ b.created_at)))

instance : IsTotal Conversation PriorityLe :=
  ⟨by
    intro a b
    unfold PriorityLe
    omega⟩

instance : IsTrans Conversation PriorityLe :=
  ⟨by
    intro a b c
    unfold PriorityLe
    omega⟩

/-- The status filter of `findByPriority`: an explicit status if supplied,
otherwise the default `status IN (NEW, IN_PROGRESS)`. -/
def passesStatusFilter (status : Option ConversationStatus) (c : Conversation) : Bool :=
  match status with
  | some st => c.status == st
  | none =>
    c.status == ConversationStatus.new || c.status == ConversationStatus.in_progress

/-- The optional `conversation.assigned_to = :assignedTo` filter of
`findByPriority`. -/
def passesAssignedFilter (assignedTo : Option Nat) (c : Conversation) : Bool :=
  match assignedTo with
  | some a => c.assigned_to == some a
  | none => true

/-- The conversations selected by `findByPriority` before ordering. -/
def priorityFiltered (s : Store) (status : Option ConversationStatus)
    (assignedTo : Option Nat) : List Conversation :=
  s.conversations.filter
    (fun c => passesStatusFilter status c && passesAssignedFilter assignedTo c)

/-- `ConversationsService.findByPriority`: filter by status (default
`NEW`/`IN_PROGRESS`) and optional assignee, order by
`(priority_order, created_at)` ascending, and left-join the `user` and
`messages` relations. -/
def findByPriority (s : Store) (status : Option ConversationStatus)
    (assignedTo : Option Nat) : List ConvView :=
  ((priorityFiltered s status assignedTo).insertionSort PriorityLe).map
    (fun c => ⟨c, userOf s c, messagesOf s c⟩)

/-! ## Conversations service: reads -/

/-- `ConversationsService.findByStudent`: a student's own conversations,
newest first, with the `messages` relation (the `user` relation is not
loaded there). -/
def findByStudent (s : Store) (userId : Nat) : List ConvView :=
  ((s.conversations.filter (fun c => c.user_id == userId)).insertionSort
      (fun a b => b.created_at ≤ a.created_at)).map
    (fun c => ⟨c, none, messagesOf s c⟩)

instance : DecidableRel (fun a b : Conversation => b.created_at ≤ a.created_at) :=
  fun a b => inferInstanceAs (Decidable (b.created_at ≤ a.created_at))

/-- `ConversationsService.findOne`: load the conversation with its `user`
and `messages` relations, authorize (students must own it, counselors
must find it unassigned or assigned to themselves), then redact the
owner's username to `"Anonymous"` when the conversation is anonymous. -/
def findOne (s : Store) (conversationId userId : Nat) (userRole : UserRole) :
    ApiResult ConvView :=
  match findConversationById s conversationId with
  | none => ApiResult.err ApiError.notFound
  | some conversation =>
    if userRole == UserRole.student && conversation.user_id != userId then
      ApiResult.err ApiError.forbidden
    else if userRole == UserRole.counselor &&
        (match conversation.assigned_to with
         | some a => a != userId
         | none => false) then
      ApiResult.err ApiError.forbidden
    else
      let user0 := userOf s conversation
      let user1 :=
        if conversation.is_anonymous then
          user0.map (fun u => { u with username := "Anonymous" })
        else user0
      ApiResult.ok ⟨conversation, user1, messagesOf s conversation⟩

/-! ## Conversations service: writes -/

/-- `UpdateConversationDto`: both fields optional; the service applies a
field only when it is present (truthy). -/
structure UpdateConversationDto where
  status : Option ConversationStatus
  assigned_to : Option Nat
  deriving DecidableEq

/-- The field-copying tail of `ConversationsService.update`: each DTO
field is applied to the row only when present (truthy). -/
def applyUpdate (dto : UpdateConversationDto) (c : Conversation) : Conversation :=
  let c1 :=
    match dto.status with
    | some st => { c with status := st }
    | none => c
  match dto.assigned_to with
  | some a => { c1 with assigned_to := some a }
  | none => c1

/-- `ConversationsService.update`: students are rejected outright;
counselors may proceed only when the conversation is unassigned or
assigned to themselves; then the present DTO fields are copied onto the
row and it is saved. -/
def update (s : Store) (conversationId : Nat) (dto : UpdateConversationDto)
    (userId : Nat) (userRole : UserRole) : ApiResult (Store × Conversation) :=
  if userRole == UserRole.student then
    ApiResult.err ApiError.forbidden
  else
    match findConversationById s conversationId with
    | none => ApiResult.err ApiError.notFound
    | some conversation =>
      if userRole == UserRole.counselor &&
          (match conversation.assigned_to with
           | some a => a != userId
           | none => false) then
        ApiResult.err ApiError.forbidden
      else
        ApiResult.ok (saveConversation s (applyUpdate dto conversation),
          applyUpdate dto conversation)

/-- `ConversationsService.assignToCounselor`: students are rejected; the
conversation is looked up by id only, then `assigned_to` and `status`
are overwritten unconditionally — the caller's identity is not even a
parameter of the service method. -/
def assignToCounselor (s : Store) (conversationId counselorId : Nat)
    (userRole : UserRole) : ApiResult (Store × Conversation) :=
  if userRole == UserRole.student then
    ApiResult.err ApiError.forbidden
  else
    match findConversationById s conversationId with
    | none => ApiResult.err ApiError.notFound
    | some conversation =>
      let c1 := { conversation with
        assigned_to := some counselorId,
        status := ConversationStatus.in_progress }
      ApiResult.ok (saveConversation s c1, c1)

/-- `ConversationsService.toggleAnonymity`: non-students are rejected with
Forbidden; the lookup folds ownership into the `where` clause
(`{ conversation_id, user_id }`), so an existing conversation the caller
does not own surfaces as NotFound. -/
def toggleAnonymity (s : Store) (conversationId userId : Nat)
    (userRole : UserRole) : ApiResult (Store × Conversation) :=
  if userRole != UserRole.student then
    ApiResult.err ApiError.forbidden
  else
    match s.conversations.find?
        (fun c => c.conversation_id == conversationId && c.user_id == userId) with
    | none => ApiResult.err ApiError.notFound
    | some conversation =>
      let c1 := { conversation with is_anonymous := !conversation.is_anonymous }
      ApiResult.ok (saveConversation s c1, c1)

/-- `CreateConversationDto`. -/
structure CreateConversationDto where
  category : ConversationCategory
  urgency : ConversationUrgency
  is_anonymous : Option Bool
  initialMessage : String
  deriving DecidableEq

/-- `ConversationsService.create`: insert a NEW conversation owned by the
caller (anonymity defaulting to false, `assigned_to` left null) and its
initial student message.  Fresh primary keys and the clock are passed in
explicitly. -/
def createConversation (s : Store) (userId : Nat) (dto : CreateConversationDto)
    (newConversationId newMessageId now : Nat) : Store × Conversation × Message :=
  let conversation : Conversation :=
    { conversation_id := newConversationId
      user_id := userId
      is_anonymous := dto.is_anonymous.getD false
      category := dto.category
      urgency := dto.urgency
      status := ConversationStatus.new
      assigned_to := none
      created_at := now }
  let message : Message :=
    { message_id := newMessageId
      conversation_id := newConversationId
      sender_id := userId
      sender_type := SenderType.student
      message_text := dto.initialMessage
      is_read := false
      created_at := now }
  ({ s with
      conversations := s.conversations ++ [conversation]
      messages := s.messages ++ [message] },
   conversation, message)

/-! ## Messages service -/

/-- `MessagesService.create`: the conversation must exist; students may
message only their own conversation, counselors only a conversation whose
`assigned_to` strictly equals their id (an unassigned conversation is
rejected too); admins skip both branches.  The stored sender type is
`student` for student callers and `counselor` otherwise. -/
def createMessage (s : Store) (conversationId userId : Nat) (userRole : UserRole)
    (messageText : String) (newMessageId now : Nat) : ApiResult (Store × Message) :=
  match findConversationById s conversationId with
  | none => ApiResult.err ApiError.notFound
  | some conversation =>
    if userRole == UserRole.student && conversation.user_id != userId then
      ApiResult.err ApiError.forbidden
    else if userRole == UserRole.counselor &&
        conversation.assigned_to != some userId then
      ApiResult.err ApiError.forbidden
    else
      let senderType :=
        if userRole == UserRole.student then SenderType.student
        else SenderType.counselor
      let message : Message :=
        { message_id := newMessageId
          conversation_id := conversationId
          sender_id := userId
          sender_type := senderType
          message_text := messageText
          is_read := false
          created_at := now }
      ApiResult.ok ({ s with messages := s.messages ++ [message] }, message)

/-- `MessagesService.markAsRead`: the message is loaded with its
`conversation` relation (the source dereferences that relation inside the
role branches; here it is the id-keyed lookup).  Students may not mark a
student-typed message and must own the parent conversation; counselors
symmetrically; admins skip every check.  On success the row is saved with
`is_read := true`. -/
def markAsRead (s : Store) (messageId userId : Nat) (userRole : UserRole) :
    ApiResult (Store × Message) :=
  match findMessageById s messageId with
  | none => ApiResult.err ApiError.notFound
  | some message =>
    let parent := findConversationById s message.conversation_id
    if userRole == UserRole.student then
      if message.sender_type == SenderType.student then
        ApiResult.err ApiError.forbidden
      else if parent.map (fun c => c.user_id) != some userId then
        ApiResult.err ApiError.forbidden
      else
        let m1 := { message with is_read := true }
        ApiResult.ok (saveMessage s m1, m1)
    else if userRole == UserRole.counselor then
      if message.sender_type == SenderType.counselor then
        ApiResult.err ApiError.forbidden
      else if (parent.bind (fun c => c.assigned_to)) != some userId then
        ApiResult.err ApiError.forbidden
      else
        let m1 := { message with is_read := true }
        ApiResult.ok (saveMessage s m1, m1)
    else
      let m1 := { message with is_read := true }
      ApiResult.ok (saveMessage s m1, m1)

/-- The sender type targeted by the bulk mark-read: counselor messages for
a student caller, student messages for every other caller. -/
def senderTypeToMark (userRole : UserRole) : SenderType :=
  if userRole == UserRole.student then SenderType.counselor
  else SenderType.student

/-- One row's worth of the bulk
`UPDATE messages SET is_read = true WHERE conversation_id = :id AND
sender_type = :t AND is_read = false`. -/
def markMessageRead (conversationId : Nat) (t : SenderType) (m : Message) : Message :=
  if m.conversation_id == conversationId && m.sender_type == t && m.is_read == false
  then { m with is_read := true }
  else m

/-- `MessagesService.markConversationAsRead`: the conversation must exist;
students must own it, counselors must find it unassigned or assigned to
themselves; then one conditional bulk update flips the other party's
unread messages to read. -/
def markConversationAsRead (s : Store) (conversationId userId : Nat)
    (userRole : UserRole) : ApiResult Store :=
  match findConversationById s conversationId with
  | none => ApiResult.err ApiError.notFound
  | some conversation =>
    if userRole == UserRole.student && conversation.user_id != userId then
      ApiResult.err ApiError.forbidden
    else if userRole == UserRole.counselor &&
        (match conversation.assigned_to with
         | some a => a != userId
         | none => false) then
      ApiResult.err ApiError.forbidden
    else
      ApiResult.ok { s with
        messages := s.messages.map
          (markMessageRead conversationId (senderTypeToMark userRole)) }

/-! ## Users service -/

/-- The conversations swept up by `UsersService.deleteUser`: those whose
owner or assignee is the deleted user (`where: [{ user_id }, { assigned_to }]`
is a TypeORM OR), projected to their primary keys. -/
def deletedConvIds (s : Store) (userId : Nat) : List Nat :=
  (s.conversations.filter
      (fun c => c.user_id == userId || c.assigned_to == some userId)).map
    (fun c => c.conversation_id)

/-- `UsersService.deleteUser`: NotFound when no such user; otherwise delete
the messages of the affected conversations, then those conversations
(both guarded by the list being non-empty), then the user row. -/
def deleteUser (s : Store) (userId : Nat) : ApiResult Store :=
  match findUserById s userId with
  | none => ApiResult.err ApiError.notFound
  | some _ =>
    let conversationIds := deletedConvIds s userId
    let s1 :=
      if conversationIds.length > 0 then
        { s with
          messages := s.messages.filter
            (fun m => !(conversationIds.contains m.conversation_id))
          conversations := s.conversations.filter
            (fun c => !(conversationIds.contains c.conversation_id)) }
      else s
    ApiResult.ok { s1 with users := s1.users.filter (fun u => u.user_id != userId) }

/-! ## Lookup outcomes

The NotFound observations the spec's §8 properties quantify over: each is
the entity-by-id lookup at the head of the corresponding service method
(`findOne` / `markAsRead` / `deleteUser`), surfaced as a result. -/

/-- Looking up a user by id, as `deleteUser` does before acting. -/
def lookupUser (s : Store) (userId : Nat) : ApiResult User :=
  match findUserById s userId with
  | none => ApiResult.err ApiError.notFound
  | some u => ApiResult.ok u

/-- Looking up a conversation by id, as every conversation operation does. -/
def lookupConversation (s : Store) (conversationId : Nat) : ApiResult Conversation :=
  match findConversationById s conversationId with
  | none => ApiResult.err ApiError.notFound
  | some c => ApiResult.ok c

/-- Looking up a message by id, as `markAsRead` does. -/
def lookupMessage (s : Store) (messageId : Nat) : ApiResult Message :=
  match findMessageById s messageId with
  | none => ApiResult.err ApiError.notFound
  | some m => ApiResult.ok m

/-! ## Data-model invariants used as hypotheses -/

/-- Primary-key integrity of the conversations table. -/
def convIdsNodup (s : Store) : Prop :=
  (s.conversations.map (fun c => c.conversation_id)).Nodup

/-- Primary-key integrity of the messages table. -/
def msgIdsNodup (s : Store) : Prop :=
  (s.messages.map (fun m => m.message_id)).Nodup

instance (s : Store) : Decidable (convIdsNodup s) :=
  inferInstanceAs
    (Decidable ((s.conversations.map
      (fun c : Conversation => c.conversation_id)).Nodup))

instance (s : Store) : Decidable (msgIdsNodup s) :=
  inferInstanceAs
    (Decidable ((s.messages.map (fun m : Message => m.message_id)).Nodup))

/-! ## Shared helper lemmas -/

/-- Saving a row that keeps the primary key of a found row makes the saved
row the one found afterwards. -/
theorem findConversationById_saveConversation (s : Store) (cid : Nat)
    (c₀ c : Conversation) (h : findConversationById s cid = some c₀)
    (hid : c.conversation_id = c₀.conversation_id) :
    findConversationById (saveConversation s c) cid = some c := by
  have hcid : c₀.conversation_id = cid := by
    have h1 := List.find?_some h
    simpa using h1
  show (s.conversations.map
      (fun c0 => if c0.conversation_id == c.conversation_id then c else c0)).find?
      (fun x => x.conversation_id == cid) = some c
  rw [List.find?_map]
  have hp : ((fun x : Conversation => x.conversation_id == cid) ∘
      fun c0 => if c0.conversation_id == c.conversation_id then c else c0)
      = (fun x : Conversation => x.conversation_id == cid) := by
    funext y
    by_cases hy : y.conversation_id = c.conversation_id
    · simp [Function.comp, hy, hid, hcid]
    · simp [Function.comp, hy]
  rw [hp]
  have h2 : s.conversations.find? (fun x => x.conversation_id == cid) = some c₀ := h
  rw [h2]
  simp [hid, hcid]

/-- `saveConversation` leaves the users and messages tables unchanged. -/
theorem saveConversation_users (s : Store) (c : Conversation) :
    (saveConversation s c).users = s.users := rfl

/-- Unfolding of `findOne` once the conversation has been found. -/
theorem findOne_eq (s : Store) (cid uid : Nat) (r : UserRole) (c : Conversation)
    (h : findConversationById s cid = some c) :
    findOne s cid uid r =
      if r == UserRole.student && c.user_id != uid then
        ApiResult.err ApiError.forbidden
      else if r == UserRole.counselor &&
          (match c.assigned_to with
           | some a => a != uid
           | none => false) then
        ApiResult.err ApiError.forbidden
      else
        ApiResult.ok ⟨c,
          (if c.is_anonymous then
            (userOf s c).map (fun u => { u with username := "Anonymous" })
          else userOf s c), messagesOf s c⟩ := by
  unfold findOne
  rw [h]

/-- A counselor other than the current assignee is rejected by `update`. -/
theorem update_by_other_counselor (s : Store) (cid uid a : Nat)
    (dto : UpdateConversationDto) (c : Conversation)
    (hc : findConversationById s cid = some c)
    (ha : c.assigned_to = some a) (hne : a ≠ uid) :
    update s cid dto uid UserRole.counselor = ApiResult.err ApiError.forbidden := by
  unfold update
  simp only [hc]
  have h1 : (UserRole.counselor == UserRole.student) = false := rfl
  rw [h1]
  simp only [Bool.false_eq_true, if_false, ha]
  have h2 : (UserRole.counselor == UserRole.counselor && a != uid) = true := by
    simp [hne]
  rw [h2]
  simp

/-! ## C1 -/

/-- C1: every list returned by `findByPriority` is ordered ascending by the
composite key `(urgency_rank, created_at)` where EMERGENCY ranks 1, HIGH 2,
MEDIUM 3, LOW 4 — so urgency buckets appear in that order and, within one
bucket, `created_at` is non-decreasing (oldest first) — and the output is
exactly a reordering of the status/assignment-filtered conversations, so
no other field affects the order. -/
theorem findByPriority_ranked (s : Store) (status : Option ConversationStatus)
    (assignedTo : Option Nat) :
    List.Pairwise
      (fun a b : ConvView =>
        priorityOrder a.conv.urgency < priorityOrder b.conv.urgency ∨
          (priorityOrder a.conv.urgency = priorityOrder b.conv.urgency ∧
            a.conv.created_at ≤ b.conv.created_at))
      (findByPriority s status assignedTo) ∧
    ((findByPriority s status assignedTo).map ConvView.conv).Perm
      (priorityFiltered s status assignedTo) := by
  constructor
  · unfold findByPriority
    rw [List.pairwise_map]
    exact List.sorted_insertionSort PriorityLe _
  · unfold findByPriority
    rw [List.map_map]
    have h1 : (ConvView.conv ∘ fun c =>
        (⟨c, userOf s c, messagesOf s c⟩ : ConvView)) = id := rfl
    rw [h1, List.map_id]
    exact List.perm_insertionSort PriorityLe _

/-! ## C2 -/

/-- Owner of the anonymous conversation in the C2 counterexample. -/
def aliceC2 : User :=
  { user_id := 1, username := "alice", role := UserRole.student, is_active := true }

/-- An anonymous NEW conversation owned by user 1. -/
def convC2 : Conversation :=
  { conversation_id := 10, user_id := 1, is_anonymous := true
    category := ConversationCategory.academic
    urgency := ConversationUrgency.high
    status := ConversationStatus.new, assigned_to := none, created_at := 5 }

/-- Store for the C2 counterexample. -/
def storeC2 : Store :=
  { users := [aliceC2], conversations := [convC2], messages := [] }

/-- C2 counterexample: conversation 10 has `is_anonymous = true`, yet the
priority-queue read returns its owner with the real username `"alice"`
rather than the placeholder — the redaction exists only in `findOne`, not
in `findByPriority`. -/
theorem findByPriority_returns_real_username :
    convC2.is_anonymous = true ∧
    (findByPriority storeC2 none none).map (fun v => v.user.map User.username) =
      [some "alice"] ∧
    some "alice" ≠ some "Anonymous" := by
  refine ⟨rfl, by decide, by decide⟩

/-- C2 amended: the redaction holds for the single-conversation read
`findOne` (for callers of every role): an anonymous conversation is
returned with the owner's username replaced by `"Anonymous"`, the stored
users table is untouched, and immediately after the owner toggles
anonymity once more `findOne` returns the stored (real) user record
unredacted.  List reads (`findByPriority`) do not redact. -/
theorem findOne_anonymity_redaction (s : Store) (cid viewer tuid : Nat)
    (r : UserRole) (c₀ : Conversation)
    (hnodup : convIdsNodup s)
    (hc₀ : findConversationById s cid = some c₀)
    (hanon : c₀.is_anonymous = true) :
    (∀ v u, findOne s cid viewer r = ApiResult.ok v → v.user = some u →
      u.username = "Anonymous") ∧
    (∀ s₁ c, toggleAnonymity s cid tuid UserRole.student = ApiResult.ok (s₁, c) →
      s₁.users = s.users ∧
      ∀ v, findOne s₁ cid viewer r = ApiResult.ok v →
        v.user = s.users.find? (fun u => u.user_id == c₀.user_id)) := by
  constructor
  · intro v u hv hu
    rw [findOne_eq s cid viewer r c₀ hc₀] at hv
    split at hv
    · exact ApiResult.noConfusion hv
    · split at hv
      · exact ApiResult.noConfusion hv
      · rw [ApiResult.ok.injEq] at hv
        subst hv
        simp only [hanon, if_true, Option.map_eq_some'] at hu
        obtain ⟨u0, _, hu0⟩ := hu
        rw [← hu0]
  · intro s₁ c ht
    unfold toggleAnonymity at ht
    simp only [bne_self_eq_false, Bool.false_eq_true, if_false] at ht
    cases hfind : s.conversations.find?
        (fun x => x.conversation_id == cid && x.user_id == tuid) with
    | none => rw [hfind] at ht; exact ApiResult.noConfusion ht
    | some c' =>
      rw [hfind] at ht
      rw [ApiResult.ok.injEq, Prod.mk.injEq] at ht
      obtain ⟨hs₁, hc⟩ := ht
      rw [hc] at hs₁
      have hp' := List.find?_some hfind
      simp only [Bool.and_eq_true, beq_iff_eq] at hp'
      have hmem' := List.mem_of_find?_eq_some hfind
      have hp₀ := List.find?_some hc₀
      simp only [beq_iff_eq] at hp₀
      have hmem₀ := List.mem_of_find?_eq_some hc₀
      have hceq : c' = c₀ :=
        List.inj_on_of_nodup_map hnodup hmem' hmem₀ (hp'.1.trans hp₀.symm)
      subst hceq
      have hcid : c.conversation_id = c'.conversation_id := by rw [← hc]
      have husers : s₁.users = s.users := by
        rw [← hs₁]
        exact saveConversation_users s c
      have hfound : findConversationById s₁ cid = some c := by
        rw [← hs₁]
        exact findConversationById_saveConversation s cid c' c hc₀ hcid
      refine ⟨husers, ?_⟩
      intro v hv
      rw [findOne_eq s₁ cid viewer r c hfound] at hv
      split at hv
      · exact ApiResult.noConfusion hv
      · split at hv
        · exact ApiResult.noConfusion hv
        · rw [ApiResult.ok.injEq] at hv
          subst hv
          have hcanon : c.is_anonymous = false := by
            rw [← hc]
            show (!c'.is_anonymous) = false
            simp [hanon]
          have hne : ¬(c.is_anonymous = true) := by
            rw [hcanon]
            exact Bool.false_ne_true
          rw [if_neg hne]
          show userOf s₁ c = _
          unfold userOf
          rw [husers]
          have huid : c.user_id = c'.user_id := by rw [← hc]
          rw [huid]

/-- Witness for the C2 amended theorem at a concrete store: student 1
views their own anonymous conversation 10 in `storeC2`. -/
theorem findOne_anonymity_redaction_witness :
    convIdsNodup storeC2 ∧ findConversationById storeC2 10 = some convC2 ∧
    convC2.is_anonymous = true ∧
    ((∀ v u, findOne storeC2 10 1 UserRole.student = ApiResult.ok v →
        v.user = some u → u.username = "Anonymous") ∧
      (∀ s₁ c, toggleAnonymity storeC2 10 1 UserRole.student = ApiResult.ok (s₁, c) →
        s₁.users = storeC2.users ∧
        ∀ v, findOne s₁ 10 1 UserRole.student = ApiResult.ok v →
          v.user = storeC2.users.find? (fun u => u.user_id == convC2.user_id))) :=
  ⟨by decide, by decide, by decide,
    findOne_anonymity_redaction storeC2 10 1 1 UserRole.student convC2
      (by decide) (by decide) (by decide)⟩

/-! ## C3 -/

/-- The already-assigned counselor in the C3 counterexample. -/
def counselorC3 : User :=
  { user_id := 1, username := "carol", role := UserRole.counselor, is_active := true }

/-- A conversation already assigned to counselor 1. -/
def convC3 : Conversation :=
  { conversation_id := 20, user_id := 5, is_anonymous := false
    category := ConversationCategory.emotional
    urgency := ConversationUrgency.low
    status := ConversationStatus.in_progress, assigned_to := some 1, created_at := 0 }

/-- Store for the C3 counterexample. -/
def storeC3 : Store :=
  { users := [counselorC3], conversations := [convC3], messages := [] }

/-- C3 counterexample: conversation 20 already has `assigned_to = 1`, yet
`assignToCounselor` invoked with the counselor role — e.g. by a different
counselor claiming it as their own (the caller's id is not even a
parameter of the service method) — succeeds and reassigns it to 2 instead
of failing with Forbidden. -/
theorem assignToCounselor_ignores_assignment :
    convC3.assigned_to = some 1 ∧
    assignToCounselor storeC3 20 2 UserRole.counselor =
      ApiResult.ok
        ({ storeC3 with conversations := [{ convC3 with assigned_to := some 2 }] },
         { convC3 with assigned_to := some 2 }) := by
  refine ⟨rfl, by decide⟩

/-- C3 amended: `assigned_to` is null when a conversation is created, and
the status/assignment `update` operation does enforce the invariant — a
counselor other than the assignee is rejected with Forbidden, while the
assignee and admins proceed — but the dedicated `assignToCounselor`
operation checks nothing beyond the role: with a counselor role it
succeeds on any existing conversation regardless of its current
assignment. -/
theorem assignment_access_control (s : Store) (dto : UpdateConversationDto)
    (cid uid tgt a ncid nmid now : Nat) (dtoC : CreateConversationDto)
    (c : Conversation) :
    ((createConversation s uid dtoC ncid nmid now).2.1.assigned_to = none) ∧
    (findConversationById s cid = some c → c.assigned_to = some a → a ≠ uid →
      update s cid dto uid UserRole.counselor = ApiResult.err ApiError.forbidden) ∧
    (findConversationById s cid = some c → c.assigned_to = some uid →
      ∃ r, update s cid dto uid UserRole.counselor = ApiResult.ok r) ∧
    (findConversationById s cid = some c →
      ∃ r, update s cid dto uid UserRole.admin = ApiResult.ok r) ∧
    (findConversationById s cid = some c →
      ∃ r, assignToCounselor s cid tgt UserRole.counselor = ApiResult.ok r) := by
  refine ⟨rfl, ?_, ?_, ?_, ?_⟩
  · intro hc ha hne
    exact update_by_other_counselor s cid uid a dto c hc ha hne
  · intro hc ha
    unfold update
    simp only [hc]
    have h1 : (UserRole.counselor == UserRole.student) = false := rfl
    rw [h1]
    simp only [Bool.false_eq_true, if_false, ha]
    have h2 : (UserRole.counselor == UserRole.counselor && uid != uid) = false := by
      simp
    rw [h2]
    exact ⟨_, rfl⟩
  · intro hc
    unfold update
    simp only [hc]
    have h1 : (UserRole.admin == UserRole.student) = false := rfl
    rw [h1]
    simp only [Bool.false_eq_true, if_false]
    have h2 : (UserRole.admin == UserRole.counselor) = false := rfl
    rw [h2]
    simp only [Bool.false_and, Bool.false_eq_true, if_false]
    exact ⟨_, rfl⟩
  · intro hc
    unfold assignToCounselor
    simp only [hc]
    have h1 : (UserRole.counselor == UserRole.student) = false := rfl
    rw [h1]
    simp only [Bool.false_eq_true, if_false]
    exact ⟨_, rfl⟩

/-- Status-only DTO used in the concrete update scenarios. -/
def dtoC3 : UpdateConversationDto :=
  { status := some ConversationStatus.resolved, assigned_to := none }

/-- Creation DTO used in the concrete scenarios. -/
def dtoCC3 : CreateConversationDto :=
  { category := ConversationCategory.academic
    urgency := ConversationUrgency.medium
    is_anonymous := none
    initialMessage := "please help" }

/-- Witness for the C3 amended theorem at concrete inputs over `storeC3`. -/
theorem assignment_access_control_witness :
    findConversationById storeC3 20 = some convC3 ∧ convC3.assigned_to = some 1 ∧
    (1 : Nat) ≠ 2 ∧
    update storeC3 20 dtoC3 2 UserRole.counselor = ApiResult.err ApiError.forbidden ∧
    (∃ r, update storeC3 20 dtoC3 1 UserRole.counselor = ApiResult.ok r) ∧
    (∃ r, update storeC3 20 dtoC3 2 UserRole.admin = ApiResult.ok r) ∧
    (∃ r, assignToCounselor storeC3 20 3 UserRole.counselor = ApiResult.ok r) ∧
    (createConversation storeC3 5 dtoCC3 21 100 7).2.1.assigned_to = none :=
  ⟨by decide, by decide, by decide,
    (assignment_access_control storeC3 dtoC3 20 2 3 1 21 100 7 dtoCC3 convC3).2.1
      (by decide) (by decide) (by decide),
    (assignment_access_control storeC3 dtoC3 20 1 3 1 21 100 7 dtoCC3 convC3).2.2.1
      (by decide) (by decide),
    (assignment_access_control storeC3 dtoC3 20 2 3 1 21 100 7 dtoCC3 convC3).2.2.2.1
      (by decide),
    (assignment_access_control storeC3 dtoC3 20 2 3 1 21 100 7 dtoCC3 convC3).2.2.2.2
      (by decide),
    (assignment_access_control storeC3 dtoC3 20 5 3 1 21 100 7 dtoCC3 convC3).1⟩

/-! ## C4 -/

/-- C4: a student's list operation (`findByStudent`) returns only
conversations whose `user_id` is the caller's, so a conversation owned by
someone else can never appear there; and the single-conversation get on
an existing conversation owned by someone else fails with Forbidden. -/
theorem student_cannot_access_foreign_conversation (s : Store) (uid cid : Nat)
    (c : Conversation) :
    (∀ v ∈ findByStudent s uid, v.conv.user_id = uid) ∧
    (findConversationById s cid = some c → c.user_id ≠ uid →
      findOne s cid uid UserRole.student = ApiResult.err ApiError.forbidden) := by
  constructor
  · intro v hv
    unfold findByStudent at hv
    rw [List.mem_map] at hv
    obtain ⟨c0, hc0, hveq⟩ := hv
    have hmem := (List.perm_insertionSort
      (fun a b : Conversation => b.created_at ≤ a.created_at) _).mem_iff.mp hc0
    rw [List.mem_filter] at hmem
    have h2 := hmem.2
    simp only [beq_iff_eq] at h2
    rw [← hveq]
    exact h2
  · intro hc hne
    rw [findOne_eq s cid uid UserRole.student c hc]
    have hcond : (UserRole.student == UserRole.student && c.user_id != uid) = true := by
      simp [hne]
    rw [if_pos hcond]

/-- Witness for C4: student 2 cannot get student 1's conversation 10. -/
theorem student_cannot_access_foreign_conversation_witness :
    findConversationById storeC2 10 = some convC2 ∧ convC2.user_id ≠ 2 ∧
    findOne storeC2 10 2 UserRole.student = ApiResult.err ApiError.forbidden :=
  ⟨by decide, by decide,
    (student_cannot_access_foreign_conversation storeC2 2 10 convC2).2
      (by decide) (by decide)⟩

/-! ## C7 -/

/-- C7: after a counselor assigns conversation X to counselor C, the row
has status IN_PROGRESS and `assigned_to = C`, and a subsequent
status/assignment update attempted by a different counselor D fails with
Forbidden; the erroring call produces no store, so X is unchanged. -/
theorem update_after_assignment_forbidden (s s₁ : Store) (X C D : Nat)
    (c : Conversation) (dto : UpdateConversationDto)
    (hassign : assignToCounselor s X C UserRole.counselor = ApiResult.ok (s₁, c))
    (hD : D ≠ C) :
    c.status = ConversationStatus.in_progress ∧ c.assigned_to = some C ∧
    update s₁ X dto D UserRole.counselor = ApiResult.err ApiError.forbidden := by
  unfold assignToCounselor at hassign
  have h1 : (UserRole.counselor == UserRole.student) = false := rfl
  rw [h1] at hassign
  simp only [Bool.false_eq_true, if_false] at hassign
  cases hfind : findConversationById s X with
  | none => rw [hfind] at hassign; exact ApiResult.noConfusion hassign
  | some c₀ =>
    rw [hfind] at hassign
    rw [ApiResult.ok.injEq, Prod.mk.injEq] at hassign
    obtain ⟨hs₁, hc⟩ := hassign
    rw [hc] at hs₁
    have hst : c.status = ConversationStatus.in_progress := by rw [← hc]
    have ha : c.assigned_to = some C := by rw [← hc]
    have hcid : c.conversation_id = c₀.conversation_id := by rw [← hc]
    have hfound : findConversationById s₁ X = some c := by
      rw [← hs₁]
      exact findConversationById_saveConversation s X c₀ c hfind hcid
    exact ⟨hst, ha,
      update_by_other_counselor s₁ X D C dto c hfound ha (fun h => hD h.symm)⟩

/-- Conversation for the C7 concrete scenario: NEW and unassigned. -/
def convC7 : Conversation :=
  { conversation_id := 50, user_id := 6, is_anonymous := false
    category := ConversationCategory.trauma
    urgency := ConversationUrgency.emergency
    status := ConversationStatus.new, assigned_to := none, created_at := 3 }

/-- Store for the C7 concrete scenario. -/
def storeC7 : Store := { users := [], conversations := [convC7], messages := [] }

/-- Conversation 50 after counselor 1 claims it. -/
def convC7a : Conversation :=
  { convC7 with assigned_to := some 1, status := ConversationStatus.in_progress }

/-- Store after counselor 1 claims conversation 50. -/
def storeC7a : Store := { storeC7 with conversations := [convC7a] }

/-- Witness for C7: counselor 1 claims conversation 50, then counselor 2's
update is rejected. -/
theorem update_after_assignment_forbidden_witness :
    assignToCounselor storeC7 50 1 UserRole.counselor =
      ApiResult.ok (storeC7a, convC7a) ∧
    (2 : Nat) ≠ 1 ∧
    (convC7a.status = ConversationStatus.in_progress ∧
      convC7a.assigned_to = some 1 ∧
      update storeC7a 50 dtoC3 2 UserRole.counselor =
        ApiResult.err ApiError.forbidden) :=
  ⟨by decide, by decide,
    update_after_assignment_forbidden storeC7 storeC7a 50 1 2 convC7a dtoC3
      (by decide) (by decide)⟩

/-! ## C5 -/

/-- One row's bulk-update step is idempotent. -/
theorem markMessageRead_idem (cid : Nat) (t : SenderType) (m : Message) :
    markMessageRead cid t (markMessageRead cid t m) = markMessageRead cid t m := by
  unfold markMessageRead
  by_cases h : (m.conversation_id == cid && m.sender_type == t &&
      m.is_read == false) = true
  · rw [if_pos h]
    simp
  · rw [if_neg h]
    rw [if_neg h]

/-- Unfolding of `markConversationAsRead` once the conversation is found. -/
theorem markConversationAsRead_eq (s : Store) (cid uid : Nat) (r : UserRole)
    (c : Conversation) (h : findConversationById s cid = some c) :
    markConversationAsRead s cid uid r =
      if r == UserRole.student && c.user_id != uid then
        ApiResult.err ApiError.forbidden
      else if r == UserRole.counselor &&
          (match c.assigned_to with
           | some a => a != uid
           | none => false) then
        ApiResult.err ApiError.forbidden
      else
        ApiResult.ok { s with
          messages := s.messages.map (markMessageRead cid (senderTypeToMark r)) } := by
  unfold markConversationAsRead
  rw [h]

/-- C5: a successful `markConversationAsRead` touches only the messages
table, flips exactly the unread messages of that conversation whose
sender type is the opposite of the caller's side, leaves no such unread
message behind, and applying it a second time returns the same store —
the second application marks nothing. -/
theorem markConversationAsRead_idempotent (s s₁ : Store) (cid uid : Nat)
    (r : UserRole)
    (h : markConversationAsRead s cid uid r = ApiResult.ok s₁) :
    s₁.users = s.users ∧ s₁.conversations = s.conversations ∧
    s₁.messages = s.messages.map (markMessageRead cid (senderTypeToMark r)) ∧
    s₁.messages.filter (fun m =>
      m.conversation_id == cid && m.sender_type == senderTypeToMark r &&
        m.is_read == false) = [] ∧
    markConversationAsRead s₁ cid uid r = ApiResult.ok s₁ := by
  cases hfind : findConversationById s cid with
  | none =>
    rw [markConversationAsRead, hfind] at h
    exact ApiResult.noConfusion h
  | some conversation =>
    rw [markConversationAsRead_eq s cid uid r conversation hfind] at h
    split at h
    · exact ApiResult.noConfusion h
    · split at h
      · exact ApiResult.noConfusion h
      · rename_i h1 h2
        rw [ApiResult.ok.injEq] at h
        subst h
        refine ⟨rfl, rfl, rfl, ?_, ?_⟩
        · rw [List.filter_eq_nil_iff]
          intro a ha
          rw [List.mem_map] at ha
          obtain ⟨m, _, hma⟩ := ha
          rw [← hma]
          unfold markMessageRead
          by_cases hcond : (m.conversation_id == cid &&
              m.sender_type == senderTypeToMark r && m.is_read == false) = true
          · rw [if_pos hcond]
            simp
          · rw [if_neg hcond]
            exact hcond
        · have hfind2 : findConversationById
              { s with messages :=
                s.messages.map (markMessageRead cid (senderTypeToMark r)) } cid =
              some conversation := hfind
          rw [markConversationAsRead_eq _ cid uid r conversation hfind2]
          rw [if_neg h1, if_neg h2]
          rw [ApiResult.ok.injEq]
          have hmm : (s.messages.map
              (markMessageRead cid (senderTypeToMark r))).map
                (markMessageRead cid (senderTypeToMark r)) =
              s.messages.map (markMessageRead cid (senderTypeToMark r)) := by
            rw [List.map_map]
            apply List.map_congr_left
            intro a _
            exact markMessageRead_idem cid (senderTypeToMark r) a
          rw [hmm]

/-- The conversation of the C5 concrete scenario. -/
def convC5 : Conversation :=
  { conversation_id := 60, user_id := 1, is_anonymous := false
    category := ConversationCategory.family
    urgency := ConversationUrgency.medium
    status := ConversationStatus.in_progress, assigned_to := some 2, created_at := 0 }

/-- An unread counselor message in conversation 60. -/
def msgC5a : Message :=
  { message_id := 200, conversation_id := 60, sender_id := 2
    sender_type := SenderType.counselor, message_text := "hello"
    is_read := false, created_at := 1 }

/-- An unread student message in conversation 60. -/
def msgC5b : Message :=
  { message_id := 201, conversation_id := 60, sender_id := 1
    sender_type := SenderType.student, message_text := "hi"
    is_read := false, created_at := 2 }

/-- Store for the C5 concrete scenario. -/
def storeC5 : Store :=
  { users := [], conversations := [convC5], messages := [msgC5a, msgC5b] }

/-- Store after student 1 bulk-marks conversation 60 as read. -/
def storeC5a : Store :=
  { storeC5 with messages := [{ msgC5a with is_read := true }, msgC5b] }

/-- Witness for C5: student 1 marks their conversation 60 as read; the
counselor message flips, the student message does not, and a second
application is a no-op. -/
theorem markConversationAsRead_idempotent_witness :
    markConversationAsRead storeC5 60 1 UserRole.student = ApiResult.ok storeC5a ∧
    (storeC5a.users = storeC5.users ∧
      storeC5a.conversations = storeC5.conversations ∧
      storeC5a.messages = storeC5.messages.map
        (markMessageRead 60 (senderTypeToMark UserRole.student)) ∧
      storeC5a.messages.filter (fun m =>
        m.conversation_id == 60 &&
          m.sender_type == senderTypeToMark UserRole.student &&
          m.is_read == false) = [] ∧
      markConversationAsRead storeC5a 60 1 UserRole.student =
        ApiResult.ok storeC5a) :=
  ⟨by decide,
    markConversationAsRead_idempotent storeC5 storeC5a 60 1 UserRole.student
      (by decide)⟩

/-! ## C6 -/

/-- Normal form of a successful `deleteUser`: all three tables filtered.
(When no conversation matched, the message/conversation filters are
identities, so the two branches of the length guard coincide.) -/
theorem deleteUser_ok (s : Store) (uid : Nat) (u : User)
    (hu : findUserById s uid = some u) :
    deleteUser s uid = ApiResult.ok
      { users := s.users.filter (fun x => x.user_id != uid)
        conversations := s.conversations.filter
          (fun c => !((deletedConvIds s uid).contains c.conversation_id))
        messages := s.messages.filter
          (fun m => !((deletedConvIds s uid).contains m.conversation_id)) } := by
  simp only [deleteUser, hu]
  by_cases hlen : (deletedConvIds s uid).length > 0
  · rw [if_pos hlen]
  · rw [if_neg hlen]
    have hnil : deletedConvIds s uid = [] :=
      List.eq_nil_of_length_eq_zero (by omega)
    rw [hnil]
    simp

/-- C6: deleting a present user removes the user row, every conversation
the user owns or is assigned to, and every message of those
conversations, so that subsequent id lookups yield NotFound; deleting an
absent id yields NotFound and returns no store. -/
theorem deleteUser_cascades (s : Store) (uid : Nat)
    (hmsg : msgIdsNodup s) :
    (∀ s₁, deleteUser s uid = ApiResult.ok s₁ →
      lookupUser s₁ uid = ApiResult.err ApiError.notFound ∧
      (∀ c ∈ s.conversations, c.user_id = uid ∨ c.assigned_to = some uid →
        lookupConversation s₁ c.conversation_id =
          ApiResult.err ApiError.notFound) ∧
      (∀ m ∈ s.messages, ∀ c ∈ s.conversations,
        m.conversation_id = c.conversation_id →
        c.user_id = uid ∨ c.assigned_to = some uid →
        lookupMessage s₁ m.message_id = ApiResult.err ApiError.notFound)) ∧
    (findUserById s uid = none →
      deleteUser s uid = ApiResult.err ApiError.notFound) := by
  constructor
  · intro s₁ h1
    cases hu : findUserById s uid with
    | none =>
      rw [deleteUser, hu] at h1
      exact ApiResult.noConfusion h1
    | some u =>
      rw [deleteUser_ok s uid u hu] at h1
      rw [ApiResult.ok.injEq] at h1
      subst h1
      have hdel : ∀ c ∈ s.conversations,
          c.user_id = uid ∨ c.assigned_to = some uid →
          c.conversation_id ∈ deletedConvIds s uid := by
        intro c hc hor
        unfold deletedConvIds
        rw [List.mem_map]
        refine ⟨c, ?_, rfl⟩
        rw [List.mem_filter]
        refine ⟨hc, ?_⟩
        rcases hor with h | h <;> simp [h]
      refine ⟨?_, ?_, ?_⟩
      · show (match List.find? (fun x => x.user_id == uid)
            (s.users.filter (fun x => x.user_id != uid)) with
          | none => ApiResult.err ApiError.notFound
          | some u => ApiResult.ok u) = ApiResult.err ApiError.notFound
        rw [List.find?_eq_none.mpr]
        intro x hx
        rw [List.mem_filter] at hx
        simp only [bne_iff_ne, ne_eq] at hx
        simp [hx.2]
      · intro c hc hor
        show (match List.find? (fun x => x.conversation_id == c.conversation_id)
            (s.conversations.filter
              (fun x => !((deletedConvIds s uid).contains x.conversation_id))) with
          | none => ApiResult.err ApiError.notFound
          | some x => ApiResult.ok x) = ApiResult.err ApiError.notFound
        rw [List.find?_eq_none.mpr]
        intro x hx
        rw [List.mem_filter] at hx
        intro hbeq
        rw [beq_iff_eq] at hbeq
        have hxd := hx.2
        rw [hbeq] at hxd
        rw [Bool.not_eq_eq_eq_not, Bool.not_true] at hxd
        have hmem := hdel c hc hor
        rw [← List.elem_iff] at hmem
        have hF : List.elem c.conversation_id (deletedConvIds s uid) = false := hxd
        rw [hmem] at hF
        exact absurd hF (by simp)
      · intro m hm c hc hcid hor
        show (match List.find? (fun x => x.message_id == m.message_id)
            (s.messages.filter
              (fun x => !((deletedConvIds s uid).contains x.conversation_id))) with
          | none => ApiResult.err ApiError.notFound
          | some x => ApiResult.ok x) = ApiResult.err ApiError.notFound
        rw [List.find?_eq_none.mpr]
        intro x hx
        rw [List.mem_filter] at hx
        intro hbeq
        rw [beq_iff_eq] at hbeq
        have hxm : x = m :=
          List.inj_on_of_nodup_map hmsg hx.1 hm hbeq
        have hxd := hx.2
        rw [hxm, hcid] at hxd
        rw [Bool.not_eq_eq_eq_not, Bool.not_true] at hxd
        have hmem := hdel c hc hor
        rw [← List.elem_iff] at hmem
        have hF : List.elem c.conversation_id (deletedConvIds s uid) = false := hxd
        rw [hmem] at hF
        exact absurd hF (by simp)
  · intro hno
    rw [deleteUser, hno]

/-- The user deleted in the C6 concrete scenario. -/
def userC6 : User :=
  { user_id := 7, username := "dana", role := UserRole.student, is_active := true }

/-- A second user, untouched by the deletion. -/
def userC6b : User :=
  { user_id := 8, username := "egon", role := UserRole.student, is_active := true }

/-- A conversation owned by user 7 (swept by the cascade). -/
def convC6a : Conversation :=
  { conversation_id := 70, user_id := 7, is_anonymous := false
    category := ConversationCategory.other
    urgency := ConversationUrgency.low
    status := ConversationStatus.new, assigned_to := none, created_at := 1 }

/-- A conversation assigned to user 7 (swept by the cascade). -/
def convC6b : Conversation :=
  { conversation_id := 71, user_id := 8, is_anonymous := false
    category := ConversationCategory.other
    urgency := ConversationUrgency.low
    status := ConversationStatus.in_progress, assigned_to := some 7, created_at := 2 }

/-- A conversation unrelated to user 7 (survives). -/
def convC6c : Conversation :=
  { conversation_id := 72, user_id := 8, is_anonymous := false
    category := ConversationCategory.other
    urgency := ConversationUrgency.low
    status := ConversationStatus.new, assigned_to := none, created_at := 3 }

/-- A message inside conversation 70 (swept). -/
def msgC6a : Message :=
  { message_id := 300, conversation_id := 70, sender_id := 7
    sender_type := SenderType.student, message_text := "a"
    is_read := false, created_at := 1 }

/-- A message inside conversation 72 (survives). -/
def msgC6b : Message :=
  { message_id := 301, conversation_id := 72, sender_id := 8
    sender_type := SenderType.student, message_text := "b"
    is_read := false, created_at := 2 }

/-- Store for the C6 concrete scenario. -/
def storeC6 : Store :=
  { users := [userC6, userC6b]
    conversations := [convC6a, convC6b, convC6c]
    messages := [msgC6a, msgC6b] }

/-- Witness for C6: deleting user 7 from `storeC6`. -/
theorem deleteUser_cascades_witness :
    msgIdsNodup storeC6 ∧
    ((∀ s₁, deleteUser storeC6 7 = ApiResult.ok s₁ →
      lookupUser s₁ 7 = ApiResult.err ApiError.notFound ∧
      (∀ c ∈ storeC6.conversations, c.user_id = 7 ∨ c.assigned_to = some 7 →
        lookupConversation s₁ c.conversation_id =
          ApiResult.err ApiError.notFound) ∧
      (∀ m ∈ storeC6.messages, ∀ c ∈ storeC6.conversations,
        m.conversation_id = c.conversation_id →
        c.user_id = 7 ∨ c.assigned_to = some 7 →
        lookupMessage s₁ m.message_id = ApiResult.err ApiError.notFound)) ∧
    (findUserById storeC6 7 = none →
      deleteUser storeC6 7 = ApiResult.err ApiError.notFound)) :=
  ⟨by decide, deleteUser_cascades storeC6 7 (by decide)⟩

/-! ## C8 -/

/-- The admin of the C8 counterexample. -/
def adminC8 : User :=
  { user_id := 9, username := "root9", role := UserRole.admin, is_active := true }

/-- A conversation owned by student 2 and assigned to counselor 3. -/
def convC8 : Conversation :=
  { conversation_id := 30, user_id := 2, is_anonymous := false
    category := ConversationCategory.academic
    urgency := ConversationUrgency.medium
    status := ConversationStatus.in_progress, assigned_to := some 3, created_at := 0 }

/-- A message authored by admin 9 (stored as counselor-typed, as
`createMessage` records for non-student senders). -/
def msgC8 : Message :=
  { message_id := 100, conversation_id := 30, sender_id := 9
    sender_type := SenderType.counselor, message_text := "note"
    is_read := false, created_at := 1 }

/-- A student-typed message in the same conversation. -/
def msgC8s : Message :=
  { message_id := 101, conversation_id := 30, sender_id := 2
    sender_type := SenderType.student, message_text := "q"
    is_read := false, created_at := 2 }

/-- Store for the C8 scenarios. -/
def storeC8 : Store :=
  { users := [adminC8], conversations := [convC8], messages := [msgC8, msgC8s] }

/-- C8 counterexample: message 100 was authored by admin 9
(`sender_id = 9`) and is unread, yet `markAsRead` invoked by that same
admin succeeds and flips the flag — the no-self-marking rule lives only
in the student and counselor branches, and the admin role skips every
check. -/
theorem markAsRead_admin_marks_own_message :
    msgC8.sender_id = 9 ∧ msgC8.is_read = false ∧
    markAsRead storeC8 100 9 UserRole.admin =
      ApiResult.ok
        ({ storeC8 with messages := [{ msgC8 with is_read := true }, msgC8s] },
         { msgC8 with is_read := true }) := by
  refine ⟨rfl, rfl, by decide⟩

/-- C8 amended: for student and counselor callers the rule holds — a
student caller can never mark a student-typed message (in particular any
message they authored) and a counselor caller can never mark a
counselor-typed message: both fail with Forbidden, producing no store.
Admin callers are exempt from the check. -/
theorem markAsRead_own_message_forbidden (s : Store) (mid uid : Nat)
    (m : Message) (hm : findMessageById s mid = some m) :
    (m.sender_type = SenderType.student →
      markAsRead s mid uid UserRole.student = ApiResult.err ApiError.forbidden) ∧
    (m.sender_type = SenderType.counselor →
      markAsRead s mid uid UserRole.counselor = ApiResult.err ApiError.forbidden) := by
  constructor
  · intro hst
    simp [markAsRead, hm, hst]
  · intro hct
    simp [markAsRead, hm, hct]

/-- Witness for the C8 amended theorem over `storeC8`. -/
theorem markAsRead_own_message_forbidden_witness :
    findMessageById storeC8 101 = some msgC8s ∧
    msgC8s.sender_type = SenderType.student ∧
    markAsRead storeC8 101 5 UserRole.student = ApiResult.err ApiError.forbidden ∧
    findMessageById storeC8 100 = some msgC8 ∧
    msgC8.sender_type = SenderType.counselor ∧
    markAsRead storeC8 100 3 UserRole.counselor = ApiResult.err ApiError.forbidden :=
  ⟨by decide, by decide,
    (markAsRead_own_message_forbidden storeC8 101 5 msgC8s (by decide)).1 (by decide),
    by decide, by decide,
    (markAsRead_own_message_forbidden storeC8 100 3 msgC8 (by decide)).2 (by decide)⟩

/-! ## C9 -/

/-- An existing conversation owned by student 1. -/
def convC9 : Conversation :=
  { conversation_id := 40, user_id := 1, is_anonymous := false
    category := ConversationCategory.relationship
    urgency := ConversationUrgency.high
    status := ConversationStatus.new, assigned_to := none, created_at := 2 }

/-- Store for the C9 scenarios. -/
def storeC9 : Store := { users := [], conversations := [convC9], messages := [] }

/-- C9 counterexample: conversation 40 exists and belongs to student 1,
yet `toggleAnonymity` by student 2 fails with NotFound rather than
Forbidden — the service folds ownership into the lookup's where-clause
and reports the miss as not-found. -/
theorem toggleAnonymity_foreign_yields_notFound :
    findConversationById storeC9 40 = some convC9 ∧ convC9.user_id ≠ 2 ∧
    toggleAnonymity storeC9 40 2 UserRole.student =
      ApiResult.err ApiError.notFound ∧
    ApiError.notFound ≠ ApiError.forbidden := by
  refine ⟨by decide, by decide, by decide, by decide⟩

/-- C9 amended: for a student caller and an existing conversation they do
not own, `toggleAnonymity` fails with NotFound (ownership is folded into
the lookup, so the lacks-permission case is reported as not-found, the
same error kind as a nonexistent id); Forbidden is raised by this
operation only for non-student callers. -/
theorem toggleAnonymity_error_kinds (s : Store) (cid uid : Nat) (r : UserRole) :
    ((∀ c ∈ s.conversations, c.conversation_id = cid → c.user_id ≠ uid) →
      toggleAnonymity s cid uid UserRole.student =
        ApiResult.err ApiError.notFound) ∧
    (r ≠ UserRole.student →
      toggleAnonymity s cid uid r = ApiResult.err ApiError.forbidden) := by
  constructor
  · intro h
    unfold toggleAnonymity
    simp only [bne_self_eq_false, Bool.false_eq_true, if_false]
    have hnone : s.conversations.find?
        (fun c => c.conversation_id == cid && c.user_id == uid) = none := by
      rw [List.find?_eq_none]
      intro x hx
      simp only [Bool.and_eq_true, beq_iff_eq, not_and]
      intro h1
      exact h x hx h1
    rw [hnone]
  · intro hr
    unfold toggleAnonymity
    have hcond : (r != UserRole.student) = true := by
      simp [hr]
    rw [if_pos hcond]

/-- Witness for the C9 amended theorem over `storeC9`. -/
theorem toggleAnonymity_error_kinds_witness :
    (∀ c ∈ storeC9.conversations, c.conversation_id = 40 → c.user_id ≠ 2) ∧
    toggleAnonymity storeC9 40 2 UserRole.student =
      ApiResult.err ApiError.notFound ∧
    UserRole.counselor ≠ UserRole.student ∧
    toggleAnonymity storeC9 40 2 UserRole.counselor =
      ApiResult.err ApiError.forbidden :=
  ⟨by decide,
    (toggleAnonymity_error_kinds storeC9 40 2 UserRole.counselor).1 (by decide),
    by decide,
    (toggleAnonymity_error_kinds storeC9 40 2 UserRole.counselor).2 (by decide)⟩

/-! ## C10 -/

/-- C10: an admin sending a message into any existing conversation succeeds
with no ownership or assignment check — the student and counselor
authorization branches are both skipped, whatever `user_id` and
`assigned_to` hold — and the stored message records
`sender_type = counselor`. -/
theorem createMessage_admin_bypasses_checks (s : Store) (cid uid nmid now : Nat)
    (text : String) (c : Conversation)
    (hc : findConversationById s cid = some c) :
    createMessage s cid uid UserRole.admin text nmid now =
      ApiResult.ok
        ({ s with messages := s.messages ++
            [{ message_id := nmid, conversation_id := cid, sender_id := uid
               sender_type := SenderType.counselor, message_text := text
               is_read := false, created_at := now }] },
         { message_id := nmid, conversation_id := cid, sender_id := uid
           sender_type := SenderType.counselor, message_text := text
           is_read := false, created_at := now }) := by
  simp [createMessage, hc]

/-- The message the admin sends in the C10 witness. -/
def msgC10 : Message :=
  { message_id := 102, conversation_id := 30, sender_id := 9
    sender_type := SenderType.counselor, message_text := "ping"
    is_read := false, created_at := 5 }

/-- Witness for C10: admin 9 messages conversation 30, which they neither
own nor are assigned to. -/
theorem createMessage_admin_bypasses_checks_witness :
    findConversationById storeC8 30 = some convC8 ∧
    convC8.user_id ≠ 9 ∧ convC8.assigned_to ≠ some 9 ∧
    createMessage storeC8 30 9 UserRole.admin "ping" 102 5 =
      ApiResult.ok ({ storeC8 with messages := storeC8.messages ++ [msgC10] },
        msgC10) :=
  ⟨by decide, by decide, by decide,
    createMessage_admin_bypasses_checks storeC8 30 9 102 5 "ping" convC8 (by decide)⟩

end MHB
